import Mathlib

/-!
Shallow embedding of the gesture-recognition engine of `hand-control.js`
(class `HandControl`) from the Hand-Tetris repository.

Conventions of the embedding:
* normalized coordinates and visibilities are rationals (`ℚ`), matching the
  exact arithmetic of the JS doubles on the small decimal fractions used here;
* `Date.now()` timestamps are natural numbers of milliseconds; every call to
  `Date.now()` inside one processing slice returns the same `now`, which is
  passed in as a parameter;
* the external game collaborator (`this.tetrisGame`, class `TetrisGame`,
  not part of the recognition engine) is modelled by the per-cycle view
  `GameIn`: its `gameRunning` flag, the current piece id (`none` when
  `currentPiece` is null), and the result the game would return from
  `movePiece(0, 1)` this cycle;
* piece ids are naturals; the JS truthiness test `if (currentPieceId && …)`
  becomes `pid ≠ 0`;
* commands dispatched to the game (`movePiece` / `rotatePiece` calls) are
  collected in an output list `List Cmd`;
* JS `null` fields become `Option`; the string-valued fields
  (`leftHandState`, `lastAction`, …) stay strings with the source's values.
-/

/-- One landmark point `{x, y, z, visibility}` as delivered by the pose
producer (normalized coordinates). -/
structure Pt where
  x : ℚ
  y : ℚ
  z : ℚ
  visibility : ℚ
  deriving Repr, DecidableEq

/-- A history-window entry `{x, y, timestamp}` (`updateHeadHistory`,
`updateHandHistory`). -/
structure HPos where
  x : ℚ
  y : ℚ
  timestamp : ℕ
  deriving Repr, DecidableEq

/-- The five landmarks the engine reads from `results.poseLandmarks`
(indices 0, 11, 12, 15, 16); each is `none` when the array slot is
null/undefined. -/
structure Landmarks where
  nose : Option Pt
  leftShoulder : Option Pt
  rightShoulder : Option Pt
  leftWrist : Option Pt
  rightWrist : Option Pt
  deriving Repr, DecidableEq

/-- Per-cycle view of the external `tetrisGame` collaborator. -/
structure GameIn where
  gameRunning : Bool
  currentPiece : Option ℕ
  moveDownSucceeds : Bool
  deriving Repr, DecidableEq

/-- Commands dispatched to the game collaborator. -/
inductive Cmd where
  | moveLeft
  | moveRight
  | rotate
  | dropStep
  deriving Repr, DecidableEq

/-- A baseline point accumulated by `calibrateBaseline` (`{x, y, z}`). -/
structure P3 where
  x : ℚ
  y : ℚ
  z : ℚ
  deriving Repr, DecidableEq

namespace HandControl

/- Control parameters from the constructor. -/
def handRaiseThreshold : ℚ := 12/100
def bothHandsVisibilityThreshold : ℚ := 6/10
def handStabilityThreshold : ℚ := 1/100
def handStabilityFrames : ℕ := 5
def actionCooldown : ℕ := 150
def handHistorySize : ℕ := 10
def maxCalibrationFrames : ℕ := 30
def headHistorySize : ℕ := 20
def requiredShakeFrames : ℕ := 12
def fastDropTriggerDelay : ℕ := 500
def fastDropInterval : ℕ := 80
def continuousMoveThreshold : ℕ := 800
def continuousMoveInterval : ℕ := 120
def maxFailureCount : ℕ := 30
def detectionHistorySize : ℕ := 10
/- Thresholds local to `detectHeadShake`. -/
def rangeThreshold : ℚ := 8/100
def varianceThreshold : ℚ := 1/1000

/-- Mutable fields of the `HandControl` instance that the recognition engine
reads or writes (rendering-only fields are omitted). -/
structure State where
  lastAction : String
  lastActionTime : ℕ
  leftHandState : String
  rightHandState : String
  lastLeftHandState : String
  lastRightHandState : String
  bothHandsVisible : Bool
  lastBothHandsVisible : Bool
  leftHandHistory : List HPos
  rightHandHistory : List HPos
  baselineLeftShoulder : Option P3
  baselineRightShoulder : Option P3
  baselineNose : Option P3
  calibrationFrames : ℕ
  headHistory : List HPos
  isHeadShaking : Bool
  consecutiveShakeFrames : ℕ
  fastDropStartTime : ℕ
  lastFastDropTime : ℕ
  isFastDropTriggered : Bool
  currentPieceId : Option ℕ
  fastDropPieceId : Option ℕ
  continuousMoveStartTime : ℕ
  lastContinuousMoveTime : ℕ
  isInContinuousMode : Bool
  poseDetectionFailureCount : ℕ
  recentDetectionHistory : List Bool
  isGestureDetected : Bool
  lastGestureDetectionStatus : Bool
  calibrationCompletedNotified : Bool
  lastSuccessfulDetection : ℕ
  frameCounter : ℕ
  deriving Repr, DecidableEq

/-- The state produced by `resetCalibration()` (also the constructor's
initial values for these fields); `now` is the `Date.now()` stored into
`lastSuccessfulDetection`. -/
def resetCalibration (now : ℕ) : State where
  lastAction := ""
  lastActionTime := 0
  leftHandState := "down"
  rightHandState := "down"
  lastLeftHandState := "down"
  lastRightHandState := "down"
  bothHandsVisible := false
  lastBothHandsVisible := false
  leftHandHistory := []
  rightHandHistory := []
  baselineLeftShoulder := none
  baselineRightShoulder := none
  baselineNose := none
  calibrationFrames := 0
  headHistory := []
  isHeadShaking := false
  consecutiveShakeFrames := 0
  fastDropStartTime := 0
  lastFastDropTime := 0
  isFastDropTriggered := false
  currentPieceId := none
  fastDropPieceId := none
  continuousMoveStartTime := 0
  lastContinuousMoveTime := 0
  isInContinuousMode := false
  poseDetectionFailureCount := 0
  recentDetectionHistory := []
  isGestureDetected := false
  lastGestureDetectionStatus := false
  calibrationCompletedNotified := false
  lastSuccessfulDetection := now
  frameCounter := 0

/-- `calculateVariance(values)`. -/
def calculateVariance (values : List ℚ) : ℚ :=
  if values.length = 0 then 0
  else
    let mean := values.sum / values.length
    ((values.map fun v => (v - mean) ^ 2).sum) / values.length

/-- `updateHeadHistory(nose)`: push `{x, y, timestamp}` and evict the oldest
entry once the length exceeds `headHistorySize`. -/
def updateHeadHistory (s : State) (nose : Pt) (now : ℕ) : State :=
  let h := s.headHistory ++ [⟨nose.x, nose.y, now⟩]
  { s with headHistory := if headHistorySize < h.length then h.tail else h }

/-- `updateHandHistory(leftWrist, rightWrist)`. -/
def updateHandHistory (s : State) (leftWrist rightWrist : Pt) (now : ℕ) :
    State :=
  let l := s.leftHandHistory ++ [⟨leftWrist.x, leftWrist.y, now⟩]
  let r := s.rightHandHistory ++ [⟨rightWrist.x, rightWrist.y, now⟩]
  { s with
    leftHandHistory := if handHistorySize < l.length then l.tail else l
    rightHandHistory := if handHistorySize < r.length then r.tail else r }

/-- `isHandStable(hand)` evaluated on one hand's history list:
`history.slice(-handStabilityFrames)` is the last five entries. -/
def isHandStable (history : List HPos) : Bool :=
  if history.length < handStabilityFrames then false
  else
    let recentFrames := history.drop (history.length - handStabilityFrames)
    let xVariance := calculateVariance (recentFrames.map HPos.x)
    let yVariance := calculateVariance (recentFrames.map HPos.y)
    xVariance < handStabilityThreshold && yVariance < handStabilityThreshold

/-- The per-frame shake test inside `detectHeadShake` on a full window:
`xRange > rangeThreshold && xVariance > varianceThreshold`. -/
def isCurrentFrameShaking (xs : List ℚ) : Bool :=
  let minX := xs.foldr min (xs.headI)
  let maxX := xs.foldr max (xs.headI)
  (maxX - minX > rangeThreshold) && (calculateVariance xs > varianceThreshold)

/-- `detectHeadShake()`: requires a full window, increments/resets the
consecutive-shake counter, and confirms shaking at `requiredShakeFrames`. -/
def detectHeadShake (s : State) : State :=
  if s.headHistory.length < headHistorySize then
    { s with isHeadShaking := false, consecutiveShakeFrames := 0 }
  else
    let xs := s.headHistory.map HPos.x
    let c := if isCurrentFrameShaking xs then s.consecutiveShakeFrames + 1
             else 0
    { s with
      consecutiveShakeFrames := c
      isHeadShaking := decide (requiredShakeFrames ≤ c) }

/-- Visibility test of `detectHandGestures`:
`wrist.visibility > bothHandsVisibilityThreshold`. -/
def handVisible (w : Pt) : Bool :=
  decide (bothHandsVisibilityThreshold < w.visibility)

/-- In-frame test of `detectHandGestures`:
`wrist.x > 0.05 && wrist.x < 0.95 && wrist.y > 0.05 && wrist.y < 0.95`. -/
def inFrame (w : Pt) : Bool :=
  decide (5/100 < w.x) && decide (w.x < 95/100) &&
    decide (5/100 < w.y) && decide (w.y < 95/100)

/-- Raise test of `detectHandGestures`:
`(shoulder.y - wrist.y) > handRaiseThreshold`. -/
def handUp (shoulder wrist : Pt) : Bool :=
  decide (handRaiseThreshold < shoulder.y - wrist.y)

/-- Piece-id tracking of `detectHandGestures` (lines 560–571): on a change of
`tetrisGame.currentPiece.id` record the new id and clear a fast-drop binding
tied to the previous id. -/
def pieceTrack (s : State) (g : GameIn) : State :=
  match g.currentPiece with
  | some pid =>
    if s.currentPieceId ≠ some pid then
      let oldPieceId := s.currentPieceId
      let s := { s with currentPieceId := some pid }
      if s.isFastDropTriggered = true ∧ s.fastDropPieceId = oldPieceId then
        { s with isFastDropTriggered := false, fastDropPieceId := none,
                 fastDropStartTime := 0 }
      else s
    else s
  | none => s

/-- Head-shake → fast-drop arming/disarming block of `detectHandGestures`
(lines 574–614).  The JS truthiness test `if (currentPieceId && …)` on the
piece id becomes `pid ≠ 0`. -/
def fastDropUpdate (s : State) (g : GameIn) (now : ℕ) : State :=
  if s.isHeadShaking = true then
    if s.isFastDropTriggered = false then
      if s.fastDropStartTime = 0 then { s with fastDropStartTime := now }
      else if fastDropTriggerDelay ≤ now - s.fastDropStartTime then
        match g.currentPiece with
        | some pid =>
          if pid ≠ 0 ∧ some pid ≠ s.fastDropPieceId then
            { s with isFastDropTriggered := true, fastDropPieceId := some pid,
                     lastFastDropTime := 0 }
          else s
        | none => s
      else s
    else s
  else
    let s :=
      if s.fastDropStartTime > 0 ∨ s.isFastDropTriggered = true then
        { s with isFastDropTriggered := false, fastDropPieceId := none }
      else s
    { s with fastDropStartTime := 0 }

/-- Fast-drop execution block of `detectHandGestures` (lines 617–634): a
`Cmd.dropStep` records the `movePiece(0, 1)` call; its result comes from
`g.moveDownSucceeds`. -/
def fastDropExec (s : State) (g : GameIn) (now : ℕ) : State × List Cmd :=
  if s.isFastDropTriggered = true ∧ g.gameRunning = true then
    if g.currentPiece = s.fastDropPieceId ∧
        fastDropInterval ≤ now - s.lastFastDropTime then
      if g.moveDownSucceeds then
        ({ s with lastFastDropTime := now }, [Cmd.dropStep])
      else
        ({ s with isFastDropTriggered := false, fastDropPieceId := none },
          [Cmd.dropStep])
    else (s, [])
  else (s, [])

/-- Single-hand down→up edge block of `detectHandGestures` (lines 644–666),
entered only when the rotation condition fails; `action` is the pending
action string. -/
def edgeAction (s : State) (shouldRotate : Bool) (now : ℕ) (action : String) :
    State × String :=
  if shouldRotate = false then
    if s.leftHandState = "up" ∧ s.lastLeftHandState ≠ "up" ∧
        s.rightHandState = "down" then
      ({ s with continuousMoveStartTime := now, isInContinuousMode := false },
        "left")
    else if s.rightHandState = "up" ∧ s.lastRightHandState ≠ "up" ∧
        s.leftHandState = "down" then
      ({ s with continuousMoveStartTime := now, isInContinuousMode := false },
        "right")
    else (s, action)
  else (s, action)

/-- Continuous-movement block of `detectHandGestures` (lines 668–721). -/
def continuousUpdate (s : State) (shouldRotate : Bool) (now : ℕ)
    (action : String) : State × String :=
  if shouldRotate = false then
    if s.leftHandState = "up" ∧ s.lastLeftHandState = "up" ∧
        s.rightHandState = "down" then
      let holdTime := now - s.continuousMoveStartTime
      let isLeftHandStable := isHandStable s.leftHandHistory
      if continuousMoveThreshold ≤ holdTime ∧ s.isInContinuousMode = false ∧
          isLeftHandStable = true then
        ({ s with isInContinuousMode := true, lastContinuousMoveTime := now },
          "left")
      else if s.isInContinuousMode = true ∧
          continuousMoveInterval ≤ now - s.lastContinuousMoveTime ∧
          isLeftHandStable = true then
        ({ s with lastContinuousMoveTime := now }, "left")
      else if s.isInContinuousMode = true ∧ isLeftHandStable = false then
        ({ s with isInContinuousMode := false, continuousMoveStartTime := 0 },
          action)
      else (s, action)
    else if s.rightHandState = "up" ∧ s.lastRightHandState = "up" ∧
        s.leftHandState = "down" then
      let holdTime := now - s.continuousMoveStartTime
      let isRightHandStable := isHandStable s.rightHandHistory
      if continuousMoveThreshold ≤ holdTime ∧ s.isInContinuousMode = false ∧
          isRightHandStable = true then
        ({ s with isInContinuousMode := true, lastContinuousMoveTime := now },
          "right")
      else if s.isInContinuousMode = true ∧
          continuousMoveInterval ≤ now - s.lastContinuousMoveTime ∧
          isRightHandStable = true then
        ({ s with lastContinuousMoveTime := now }, "right")
      else if s.isInContinuousMode = true ∧ isRightHandStable = false then
        ({ s with isInContinuousMode := false, continuousMoveStartTime := 0 },
          action)
      else (s, action)
    else if s.leftHandState = "down" ∧ s.rightHandState = "down" then
      ({ s with continuousMoveStartTime := 0, isInContinuousMode := false },
        action)
    else (s, action)
  else
    if s.isInContinuousMode = true then
      ({ s with isInContinuousMode := false, continuousMoveStartTime := 0 },
        action)
    else (s, action)

/-- `executeAction(action)` (lines 887–910): returns the game calls made.
Nothing is dispatched when `tetrisGame.gameRunning` is false. -/
def executeAction (g : GameIn) (action : String) : List Cmd :=
  if g.gameRunning = false then []
  else if action = "left" then [Cmd.moveLeft]
  else if action = "right" then [Cmd.moveRight]
  else if action = "rotate" then [Cmd.rotate]
  else []

/-- Action-dispatch block of `detectHandGestures` (lines 728–755): skip-check,
`executeAction`, and cooldown start for non-continuous actions. -/
def dispatch (s : State) (g : GameIn) (now : ℕ) (action : String) :
    State × List Cmd :=
  if action ≠ "" then
    let isContinuousMove := s.isInContinuousMode
    let shouldExecute := action = "rotate" ∨ action ≠ s.lastAction ∨
      isContinuousMove = true
    if shouldExecute then
      let cmds := executeAction g action
      if isContinuousMove = false then
        ({ s with lastAction := action, lastActionTime := now }, cmds)
      else (s, cmds)
    else (s, [])
  else (s, [])

/-- `detectHandGestures(landmarks)` (lines 468–759).

Two embedding notes beyond the conventions above:
* the `setTimeout` scheduled when a non-continuous action starts the cooldown
  clears `lastAction` after `actionCooldown` ms; any cycle that passes the
  cooldown gate runs at `now ≥ lastActionTime + actionCooldown`, by which time
  that timer has fired, so the model clears `lastAction` right after the gate
  (at the exact boundary `now = lastActionTime + actionCooldown` the JS event
  ordering is a race; the timer is modelled as having fired);
* the debug block at lines 518–524 reads the `const` bindings
  `areBothHandsUp`, `handHeightDifference`, `shouldRotate` and
  `maxHeightDifference` declared only at lines 545–551, so whenever it runs
  (`frameCounter % 30 === 0`) it throws a temporal-dead-zone `ReferenceError`
  that the `catch` at line 756 swallows: the cycle ends right there, after the
  head-history update and head-shake detection but before everything else. -/
def detectHandGestures (s : State) (lm : Landmarks) (g : GameIn) (now : ℕ) :
    State × List Cmd :=
  if s.baselineLeftShoulder = none ∨ s.baselineRightShoulder = none ∨
      s.baselineNose = none then (s, [])
  else if now - s.lastActionTime < actionCooldown then (s, [])
  else
    let s := { s with lastAction := "" }
    match lm.leftWrist, lm.rightWrist, lm.leftShoulder, lm.rightShoulder,
        lm.nose with
    | some leftWrist, some rightWrist, some leftShoulder, some rightShoulder,
        some nose =>
      -- 1. head-shake detection (lines 498–499)
      let s := updateHeadHistory s nose now
      let s := detectHeadShake s
      -- debug block at lines 518–524: ReferenceError when it runs
      if s.frameCounter % 30 = 0 then (s, [])
      else
        -- 2. both-hands visibility (lines 507–515)
        let areBothHandsVisible := handVisible leftWrist &&
          handVisible rightWrist && inFrame leftWrist && inFrame rightWrist
        -- 3. raise detection (lines 527–530)
        let isLeftHandUp := handUp leftShoulder leftWrist
        let isRightHandUp := handUp rightShoulder rightWrist
        let s := updateHandHistory s leftWrist rightWrist now
        let s := { s with
          leftHandState := if isLeftHandUp then "up" else "down"
          rightHandState := if isRightHandUp then "up" else "down" }
        -- rotation condition (lines 545–555)
        let areBothHandsUp := isLeftHandUp && isRightHandUp
        let shouldRotate := areBothHandsVisible && areBothHandsUp
        let bothHandsJustAppeared := shouldRotate && !s.bothHandsVisible
        let s := { s with bothHandsVisible := shouldRotate }
        let s := pieceTrack s g
        let s := fastDropUpdate s g now
        let fde := fastDropExec s g now
        let s := fde.1
        let dropCmds := fde.2
        let action := if bothHandsJustAppeared then "rotate" else ""
        let ea := edgeAction s shouldRotate now action
        let s := ea.1
        let action := ea.2
        let cu := continuousUpdate s shouldRotate now action
        let s := cu.1
        let action := cu.2
        -- state commit (lines 723–726)
        let s := { s with
          lastBothHandsVisible := s.bothHandsVisible
          lastLeftHandState := s.leftHandState
          lastRightHandState := s.rightHandState }
        let dp := dispatch s g now action
        (dp.1, dropCmds ++ dp.2)
    | _, _, _, _, _ => (s, [])

/-- `calibrateBaseline(landmarks)` (lines 364–421): accumulate the three
calibration points; on the accumulation with `calibrationFrames` equal to
`maxCalibrationFrames - 1`, divide the sums and fire the one-shot
`onCalibrationComplete` callback (the returned `Bool`). -/
def calibrateBaseline (s : State) (lm : Landmarks) : State × Bool :=
  match lm.leftShoulder, lm.rightShoulder, lm.nose with
  | some leftShoulder, some rightShoulder, some nose =>
    let (bls, brs, bn) :=
      if s.baselineLeftShoulder = none then
        ((⟨0, 0, 0⟩ : P3), (⟨0, 0, 0⟩ : P3), (⟨0, 0, 0⟩ : P3))
      else
        (s.baselineLeftShoulder.getD ⟨0, 0, 0⟩,
         s.baselineRightShoulder.getD ⟨0, 0, 0⟩,
         s.baselineNose.getD ⟨0, 0, 0⟩)
    let bls := ⟨bls.x + leftShoulder.x, bls.y + leftShoulder.y,
      bls.z + leftShoulder.z⟩
    let brs := ⟨brs.x + rightShoulder.x, brs.y + rightShoulder.y,
      brs.z + rightShoulder.z⟩
    let bn : P3 := ⟨bn.x + nose.x, bn.y + nose.y, bn.z + nose.z⟩
    if s.calibrationFrames = maxCalibrationFrames - 1 then
      let m : ℚ := (maxCalibrationFrames : ℚ)
      ({ s with
          baselineLeftShoulder := some ⟨bls.x / m, bls.y / m, bls.z / m⟩
          baselineRightShoulder := some ⟨brs.x / m, brs.y / m, brs.z / m⟩
          baselineNose := some ⟨bn.x / m, bn.y / m, bn.z / m⟩
          calibrationCompletedNotified := true }, true)
    else
      ({ s with
          baselineLeftShoulder := some bls
          baselineRightShoulder := some brs
          baselineNose := some bn }, false)
  | _, _, _ => (s, false)

/-- Host-visible outputs of one `onResults` frame. -/
structure Output where
  cmds : List Cmd
  calibrationCompleteFired : Bool
  statusChange : Option Bool
  deriving Repr, DecidableEq

/-- The detection-history update pattern of `onResults` (lines 262–265 and
304–307): push an outcome and evict the oldest entry once the length exceeds
`detectionHistorySize`. -/
def pushHistory (l : List Bool) (b : Bool) : List Bool :=
  let h := l ++ [b]
  if detectionHistorySize < h.length then h.tail else h

/-- The `recentSuccessRate` computation of `onResults` (lines 317–318):
fraction of `true` entries, 0 on an empty window. -/
def recentSuccessRate (l : List Bool) : ℚ :=
  if l.length > 0 then ((l.count true : ℚ) / (l.length : ℚ)) else 0

/-- The status-changed notification at the end of `onResults`
(lines 344–349). -/
def statusNotify (s : State) : State × Option Bool :=
  if s.isGestureDetected ≠ s.lastGestureDetectionStatus then
    ({ s with lastGestureDetectionStatus := s.isGestureDetected },
      some s.isGestureDetected)
  else (s, none)

/-- `onResults(results)` (lines 226–362), state-relevant part.  `sample` is
`some lm` when `results.poseLandmarks` is a non-empty array and `none`
otherwise.  Note that the calibration branch `return`s before the
status-changed check and before `frameCounter++`. -/
def onResults (s : State) (sample : Option Landmarks) (g : GameIn)
    (now : ℕ) : State × Output :=
  match sample with
  | some lm =>
    let s := { s with poseDetectionFailureCount := 0,
                      lastSuccessfulDetection := now,
                      isGestureDetected := true,
                      recentDetectionHistory :=
                        pushHistory s.recentDetectionHistory true }
    if s.calibrationFrames < maxCalibrationFrames then
      let cb := calibrateBaseline s lm
      let s := { cb.1 with calibrationFrames := cb.1.calibrationFrames + 1 }
      (s, { cmds := [], calibrationCompleteFired := cb.2,
            statusChange := none })
    else
      let dg := detectHandGestures s lm g now
      let sn := statusNotify dg.1
      ({ sn.1 with frameCounter := sn.1.frameCounter + 1 },
        { cmds := dg.2, calibrationCompleteFired := false,
          statusChange := sn.2 })
  | none =>
    let s := { s with
      poseDetectionFailureCount := s.poseDetectionFailureCount + 1
      recentDetectionHistory := pushHistory s.recentDetectionHistory false }
    let s :=
      if maxFailureCount ≤ s.poseDetectionFailureCount ∧
          recentSuccessRate s.recentDetectionHistory < 2/10 then
        { s with isGestureDetected := false }
      else s
    let sn := statusNotify s
    ({ sn.1 with frameCounter := sn.1.frameCounter + 1 },
      { cmds := [], calibrationCompleteFired := false, statusChange := sn.2 })

/-- One frame of input to `onResults`. -/
structure Frame where
  sample : Option Landmarks
  game : GameIn
  now : ℕ
  deriving Repr, DecidableEq

/-- Run `onResults` over a list of frames, collecting each frame's list of
game commands. -/
def runResults (s : State) : List Frame → State × List (List Cmd)
  | [] => (s, [])
  | f :: fs =>
    let r := onResults s f.sample f.game f.now
    let rest := runResults r.1 fs
    (rest.1, r.2.cmds :: rest.2)

/-- The Both-Hands-Up condition of `detectHandGestures` as a predicate on one
sample: all five landmarks present, both wrists above the visibility
threshold and inside the frame margin, and both hands raised
(`shouldRotate = areBothHandsVisible && areBothHandsUp`). -/
def bothHandsUpSample (lm : Landmarks) : Bool :=
  match lm.leftWrist, lm.rightWrist, lm.leftShoulder, lm.rightShoulder,
      lm.nose with
  | some lw, some rw, some ls, some rs, some _ =>
    handVisible lw && handVisible rw && inFrame lw && inFrame rw &&
      handUp ls lw && handUp rs rw
  | _, _, _, _, _ => false

/-- Feed a sequence of head positions through the head-shake pipeline
(`updateHeadHistory` followed by `detectHeadShake`, the order of lines
498–499), one frame per entry. -/
def feedHead (s : State) (ns : List Pt) (now : ℕ) : State :=
  ns.foldl (fun s n => detectHeadShake (updateHeadHistory s n now)) s

/-- A head landmark at horizontal position `x` (y, z, visibility are not read
by the head-shake pipeline beyond being stored). -/
def headPt (x : ℚ) : Pt := ⟨x, 3/10, 0, 9/10⟩

/-- The synthetic head sequence of the head-shake latency property:
x alternating between 0.40 and 0.50. -/
def altSeq (n : ℕ) : List Pt :=
  (List.range n).map fun k => headPt (if k % 2 = 0 then 2/5 else 1/2)

/-- A sample with the nose at (0.5, 0.3), shoulders at (0.4, 0.5) and
(0.6, 0.5), and both wrists raised well above the shoulders, visible and
inside the frame margin. -/
def upSample : Landmarks where
  nose := some ⟨1/2, 3/10, 0, 9/10⟩
  leftShoulder := some ⟨2/5, 1/2, 0, 9/10⟩
  rightShoulder := some ⟨3/5, 1/2, 0, 9/10⟩
  leftWrist := some ⟨2/5, 3/10, 0, 9/10⟩
  rightWrist := some ⟨3/5, 3/10, 0, 9/10⟩

/-- `upSample` with the nose landmark missing. -/
def noNoseSample : Landmarks := { upSample with nose := none }

/-- A running game holding piece 1 whose `movePiece(0, 1)` succeeds. -/
def gRun : GameIn := ⟨true, some 1, true⟩

/-- The scenario of the rotation edge-trigger property, run from a fresh
start: 30 valid calibration frames followed by 100 frames holding the
Both-Hands-Up condition, ~30 ms apart. -/
def c1Frames : List Frame :=
  (List.range 130).map fun k => ⟨some upSample, gRun, 100000 + 33 * k⟩

/-- A frame qualifies for the rotation property when its sample satisfies the
Both-Hands-Up condition and the game is running. -/
def qualFrame (f : Frame) : Bool :=
  (match f.sample with
   | some lm => bothHandsUpSample lm
   | none => false) && f.game.gameRunning

/-- A state as left by a completed clean calibration on `upSample` frames. -/
def calibState : State := { resetCalibration 0 with
  baselineLeftShoulder := some ⟨2/5, 1/2, 0⟩
  baselineRightShoulder := some ⟨3/5, 1/2, 0⟩
  baselineNose := some ⟨1/2, 3/10, 0⟩
  calibrationFrames := 30 }

/-- A calibrated state 100 ms into the cooldown of a previous action, with a
pending Both-Hands-Up edge and a continuous-move tick due. -/
def c2State : State := { calibState with
  lastActionTime := 1000
  frameCounter := 1
  isInContinuousMode := true
  leftHandState := "up"
  lastLeftHandState := "up"
  lastContinuousMoveTime := 800
  leftHandHistory := List.replicate 5 ⟨3/10, 3/10, 900⟩ }

/-- A sample with only the left hand raised; the right wrist is below its
shoulder and under the visibility threshold. -/
def leftUpSample : Landmarks where
  nose := some ⟨1/2, 3/10, 0, 9/10⟩
  leftShoulder := some ⟨2/5, 1/2, 0, 9/10⟩
  rightShoulder := some ⟨3/5, 1/2, 0, 9/10⟩
  leftWrist := some ⟨3/10, 3/10, 0, 9/10⟩
  rightWrist := some ⟨7/10, 3/5, 0, 1/10⟩

/-- A calibrated state in continuous-move mode on the left hand whose recent
left-hand history is widely spread (unstable). -/
def c8State : State := { calibState with
  frameCounter := 1
  isInContinuousMode := true
  continuousMoveStartTime := 100000
  leftHandState := "up"
  lastLeftHandState := "up"
  leftHandHistory := [⟨1/10, 3/10, 0⟩, ⟨9/10, 3/10, 0⟩, ⟨1/10, 3/10, 0⟩,
    ⟨9/10, 3/10, 0⟩, ⟨1/10, 3/10, 0⟩] }

/-- Four frames holding the left hand up at a fixed position, 33 ms apart. -/
def c8Frames : List Frame :=
  (List.range 4).map fun k => ⟨some leftUpSample, gRun, 200033 + 33 * k⟩

/-- Valid calibration frames on `upSample`. -/
def calFrames (n : ℕ) : List Frame := List.replicate n ⟨some upSample, gRun, 0⟩

/-- The state after five valid calibration frames. -/
def calState5 : State := (runResults (resetCalibration 0) (calFrames 5)).1

/-- Twenty-nine valid calibration frames followed by one pose-detected frame
whose landmarks lack the nose. -/
def c6Frames : List Frame := calFrames 29 ++ [⟨some noNoseSample, gRun, 0⟩]

/-- A full head-history window of x-positions alternating 0.40 / 0.50. -/
def altHist : List HPos :=
  (List.range 20).map fun k => ⟨if k % 2 = 0 then 2/5 else 1/2, 3/10, 0⟩

/-- A calibrated state, armed for fast drop and bound to piece 1. -/
def c4State : State := { calibState with
  frameCounter := 1
  isFastDropTriggered := true
  currentPieceId := some 1
  fastDropPieceId := some 1 }

/-- A game whose current piece is 2. -/
def gPiece2 : GameIn := ⟨true, some 2, true⟩

/-- A calibrated, disarmed state with a sustained confirmed head shake and a
fast-drop qualification timer started at t = 100. -/
def c4bState : State := { calibState with
  frameCounter := 1
  headHistory := altHist
  consecutiveShakeFrames := 12
  isHeadShaking := true
  fastDropStartTime := 100
  currentPieceId := some 1 }

/-- A game that is not running. -/
def gStop : GameIn := ⟨false, some 1, true⟩

/-- A calibrated state holding the left hand up and steady, not in
continuous mode, with a cleared hold start time. -/
def reentryState : State := { calibState with
  leftHandState := "up"
  lastLeftHandState := "up"
  leftHandHistory := List.replicate 5 ⟨3/10, 3/10, 0⟩ }

/-- A calibrated state on the cycle of a left-hand down-to-up edge. -/
def edgeState : State := { calibState with leftHandState := "up" }

end HandControl

namespace HandControl

/-! ### Stage lemmas: which fields each block of `detectHandGestures`
leaves unchanged, and basic behavior facts. -/

theorem updateHeadHistory_pres (s : State) (n : Pt) (now : ℕ) :
    (updateHeadHistory s n now).bothHandsVisible = s.bothHandsVisible ∧
    (updateHeadHistory s n now).baselineLeftShoulder = s.baselineLeftShoulder ∧
    (updateHeadHistory s n now).baselineRightShoulder = s.baselineRightShoulder ∧
    (updateHeadHistory s n now).baselineNose = s.baselineNose ∧
    (updateHeadHistory s n now).calibrationFrames = s.calibrationFrames ∧
    (updateHeadHistory s n now).isGestureDetected = s.isGestureDetected ∧
    (updateHeadHistory s n now).lastGestureDetectionStatus = s.lastGestureDetectionStatus ∧
    (updateHeadHistory s n now).poseDetectionFailureCount = s.poseDetectionFailureCount ∧
    (updateHeadHistory s n now).recentDetectionHistory = s.recentDetectionHistory ∧
    (updateHeadHistory s n now).frameCounter = s.frameCounter ∧
    (updateHeadHistory s n now).lastActionTime = s.lastActionTime ∧
    (updateHeadHistory s n now).isFastDropTriggered = s.isFastDropTriggered ∧
    (updateHeadHistory s n now).fastDropPieceId = s.fastDropPieceId ∧
    (updateHeadHistory s n now).fastDropStartTime = s.fastDropStartTime ∧
    (updateHeadHistory s n now).isInContinuousMode = s.isInContinuousMode ∧
    (updateHeadHistory s n now).continuousMoveStartTime = s.continuousMoveStartTime ∧
    (updateHeadHistory s n now).leftHandState = s.leftHandState ∧
    (updateHeadHistory s n now).rightHandState = s.rightHandState ∧
    (updateHeadHistory s n now).lastLeftHandState = s.lastLeftHandState ∧
    (updateHeadHistory s n now).lastRightHandState = s.lastRightHandState ∧
    (updateHeadHistory s n now).currentPieceId = s.currentPieceId ∧
    (updateHeadHistory s n now).lastAction = s.lastAction := by
  unfold updateHeadHistory
  repeat' (first | simp | split_ifs | split)

theorem detectHeadShake_pres (s : State) :
    (detectHeadShake s).bothHandsVisible = s.bothHandsVisible ∧
    (detectHeadShake s).baselineLeftShoulder = s.baselineLeftShoulder ∧
    (detectHeadShake s).baselineRightShoulder = s.baselineRightShoulder ∧
    (detectHeadShake s).baselineNose = s.baselineNose ∧
    (detectHeadShake s).calibrationFrames = s.calibrationFrames ∧
    (detectHeadShake s).isGestureDetected = s.isGestureDetected ∧
    (detectHeadShake s).lastGestureDetectionStatus = s.lastGestureDetectionStatus ∧
    (detectHeadShake s).poseDetectionFailureCount = s.poseDetectionFailureCount ∧
    (detectHeadShake s).recentDetectionHistory = s.recentDetectionHistory ∧
    (detectHeadShake s).frameCounter = s.frameCounter ∧
    (detectHeadShake s).lastActionTime = s.lastActionTime ∧
    (detectHeadShake s).isFastDropTriggered = s.isFastDropTriggered ∧
    (detectHeadShake s).fastDropPieceId = s.fastDropPieceId ∧
    (detectHeadShake s).fastDropStartTime = s.fastDropStartTime ∧
    (detectHeadShake s).isInContinuousMode = s.isInContinuousMode ∧
    (detectHeadShake s).continuousMoveStartTime = s.continuousMoveStartTime ∧
    (detectHeadShake s).leftHandState = s.leftHandState ∧
    (detectHeadShake s).rightHandState = s.rightHandState ∧
    (detectHeadShake s).lastLeftHandState = s.lastLeftHandState ∧
    (detectHeadShake s).lastRightHandState = s.lastRightHandState ∧
    (detectHeadShake s).currentPieceId = s.currentPieceId ∧
    (detectHeadShake s).lastAction = s.lastAction := by
  unfold detectHeadShake
  repeat' (first | simp | split_ifs | split)

theorem updateHandHistory_pres (s : State) (lw rw : Pt) (now : ℕ) :
    (updateHandHistory s lw rw now).bothHandsVisible = s.bothHandsVisible ∧
    (updateHandHistory s lw rw now).baselineLeftShoulder = s.baselineLeftShoulder ∧
    (updateHandHistory s lw rw now).baselineRightShoulder = s.baselineRightShoulder ∧
    (updateHandHistory s lw rw now).baselineNose = s.baselineNose ∧
    (updateHandHistory s lw rw now).calibrationFrames = s.calibrationFrames ∧
    (updateHandHistory s lw rw now).isGestureDetected = s.isGestureDetected ∧
    (updateHandHistory s lw rw now).lastGestureDetectionStatus = s.lastGestureDetectionStatus ∧
    (updateHandHistory s lw rw now).poseDetectionFailureCount = s.poseDetectionFailureCount ∧
    (updateHandHistory s lw rw now).recentDetectionHistory = s.recentDetectionHistory ∧
    (updateHandHistory s lw rw now).frameCounter = s.frameCounter ∧
    (updateHandHistory s lw rw now).lastActionTime = s.lastActionTime ∧
    (updateHandHistory s lw rw now).isFastDropTriggered = s.isFastDropTriggered ∧
    (updateHandHistory s lw rw now).fastDropPieceId = s.fastDropPieceId ∧
    (updateHandHistory s lw rw now).fastDropStartTime = s.fastDropStartTime ∧
    (updateHandHistory s lw rw now).isInContinuousMode = s.isInContinuousMode ∧
    (updateHandHistory s lw rw now).continuousMoveStartTime = s.continuousMoveStartTime ∧
    (updateHandHistory s lw rw now).isHeadShaking = s.isHeadShaking ∧
    (updateHandHistory s lw rw now).lastLeftHandState = s.lastLeftHandState ∧
    (updateHandHistory s lw rw now).lastRightHandState = s.lastRightHandState ∧
    (updateHandHistory s lw rw now).currentPieceId = s.currentPieceId ∧
    (updateHandHistory s lw rw now).lastAction = s.lastAction := by
  unfold updateHandHistory
  repeat' (first | simp | split_ifs | split)

theorem pieceTrack_pres (s : State) (g : GameIn) :
    (pieceTrack s g).bothHandsVisible = s.bothHandsVisible ∧
    (pieceTrack s g).baselineLeftShoulder = s.baselineLeftShoulder ∧
    (pieceTrack s g).baselineRightShoulder = s.baselineRightShoulder ∧
    (pieceTrack s g).baselineNose = s.baselineNose ∧
    (pieceTrack s g).calibrationFrames = s.calibrationFrames ∧
    (pieceTrack s g).isGestureDetected = s.isGestureDetected ∧
    (pieceTrack s g).lastGestureDetectionStatus = s.lastGestureDetectionStatus ∧
    (pieceTrack s g).poseDetectionFailureCount = s.poseDetectionFailureCount ∧
    (pieceTrack s g).recentDetectionHistory = s.recentDetectionHistory ∧
    (pieceTrack s g).frameCounter = s.frameCounter ∧
    (pieceTrack s g).lastActionTime = s.lastActionTime ∧
    (pieceTrack s g).isInContinuousMode = s.isInContinuousMode ∧
    (pieceTrack s g).continuousMoveStartTime = s.continuousMoveStartTime ∧
    (pieceTrack s g).isHeadShaking = s.isHeadShaking ∧
    (pieceTrack s g).leftHandState = s.leftHandState ∧
    (pieceTrack s g).rightHandState = s.rightHandState ∧
    (pieceTrack s g).lastLeftHandState = s.lastLeftHandState ∧
    (pieceTrack s g).lastRightHandState = s.lastRightHandState ∧
    (pieceTrack s g).lastAction = s.lastAction := by
  unfold pieceTrack
  repeat' (first | simp | split_ifs | split)

theorem fastDropUpdate_pres (s : State) (g : GameIn) (now : ℕ) :
    (fastDropUpdate s g now).bothHandsVisible = s.bothHandsVisible ∧
    (fastDropUpdate s g now).baselineLeftShoulder = s.baselineLeftShoulder ∧
    (fastDropUpdate s g now).baselineRightShoulder = s.baselineRightShoulder ∧
    (fastDropUpdate s g now).baselineNose = s.baselineNose ∧
    (fastDropUpdate s g now).calibrationFrames = s.calibrationFrames ∧
    (fastDropUpdate s g now).isGestureDetected = s.isGestureDetected ∧
    (fastDropUpdate s g now).lastGestureDetectionStatus = s.lastGestureDetectionStatus ∧
    (fastDropUpdate s g now).poseDetectionFailureCount = s.poseDetectionFailureCount ∧
    (fastDropUpdate s g now).recentDetectionHistory = s.recentDetectionHistory ∧
    (fastDropUpdate s g now).frameCounter = s.frameCounter ∧
    (fastDropUpdate s g now).lastActionTime = s.lastActionTime ∧
    (fastDropUpdate s g now).isInContinuousMode = s.isInContinuousMode ∧
    (fastDropUpdate s g now).continuousMoveStartTime = s.continuousMoveStartTime ∧
    (fastDropUpdate s g now).isHeadShaking = s.isHeadShaking ∧
    (fastDropUpdate s g now).leftHandState = s.leftHandState ∧
    (fastDropUpdate s g now).rightHandState = s.rightHandState ∧
    (fastDropUpdate s g now).lastLeftHandState = s.lastLeftHandState ∧
    (fastDropUpdate s g now).lastRightHandState = s.lastRightHandState ∧
    (fastDropUpdate s g now).currentPieceId = s.currentPieceId ∧
    (fastDropUpdate s g now).lastAction = s.lastAction := by
  unfold fastDropUpdate
  repeat' (first | simp | split_ifs | split)

theorem fastDropExec_pres (s : State) (g : GameIn) (now : ℕ) :
    (fastDropExec s g now).1.bothHandsVisible = s.bothHandsVisible ∧
    (fastDropExec s g now).1.baselineLeftShoulder = s.baselineLeftShoulder ∧
    (fastDropExec s g now).1.baselineRightShoulder = s.baselineRightShoulder ∧
    (fastDropExec s g now).1.baselineNose = s.baselineNose ∧
    (fastDropExec s g now).1.calibrationFrames = s.calibrationFrames ∧
    (fastDropExec s g now).1.isGestureDetected = s.isGestureDetected ∧
    (fastDropExec s g now).1.lastGestureDetectionStatus = s.lastGestureDetectionStatus ∧
    (fastDropExec s g now).1.poseDetectionFailureCount = s.poseDetectionFailureCount ∧
    (fastDropExec s g now).1.recentDetectionHistory = s.recentDetectionHistory ∧
    (fastDropExec s g now).1.frameCounter = s.frameCounter ∧
    (fastDropExec s g now).1.lastActionTime = s.lastActionTime ∧
    (fastDropExec s g now).1.fastDropStartTime = s.fastDropStartTime ∧
    (fastDropExec s g now).1.isInContinuousMode = s.isInContinuousMode ∧
    (fastDropExec s g now).1.continuousMoveStartTime = s.continuousMoveStartTime ∧
    (fastDropExec s g now).1.isHeadShaking = s.isHeadShaking ∧
    (fastDropExec s g now).1.leftHandState = s.leftHandState ∧
    (fastDropExec s g now).1.rightHandState = s.rightHandState ∧
    (fastDropExec s g now).1.lastLeftHandState = s.lastLeftHandState ∧
    (fastDropExec s g now).1.lastRightHandState = s.lastRightHandState ∧
    (fastDropExec s g now).1.currentPieceId = s.currentPieceId ∧
    (fastDropExec s g now).1.lastAction = s.lastAction := by
  unfold fastDropExec
  repeat' (first | simp | split_ifs | split)

theorem edgeAction_pres (s : State) (b : Bool) (now : ℕ) (a : String) :
    (edgeAction s b now a).1.bothHandsVisible = s.bothHandsVisible ∧
    (edgeAction s b now a).1.baselineLeftShoulder = s.baselineLeftShoulder ∧
    (edgeAction s b now a).1.baselineRightShoulder = s.baselineRightShoulder ∧
    (edgeAction s b now a).1.baselineNose = s.baselineNose ∧
    (edgeAction s b now a).1.calibrationFrames = s.calibrationFrames ∧
    (edgeAction s b now a).1.isGestureDetected = s.isGestureDetected ∧
    (edgeAction s b now a).1.lastGestureDetectionStatus = s.lastGestureDetectionStatus ∧
    (edgeAction s b now a).1.poseDetectionFailureCount = s.poseDetectionFailureCount ∧
    (edgeAction s b now a).1.recentDetectionHistory = s.recentDetectionHistory ∧
    (edgeAction s b now a).1.frameCounter = s.frameCounter ∧
    (edgeAction s b now a).1.lastActionTime = s.lastActionTime ∧
    (edgeAction s b now a).1.isFastDropTriggered = s.isFastDropTriggered ∧
    (edgeAction s b now a).1.fastDropPieceId = s.fastDropPieceId ∧
    (edgeAction s b now a).1.fastDropStartTime = s.fastDropStartTime ∧
    (edgeAction s b now a).1.isHeadShaking = s.isHeadShaking ∧
    (edgeAction s b now a).1.leftHandState = s.leftHandState ∧
    (edgeAction s b now a).1.rightHandState = s.rightHandState ∧
    (edgeAction s b now a).1.lastLeftHandState = s.lastLeftHandState ∧
    (edgeAction s b now a).1.lastRightHandState = s.lastRightHandState ∧
    (edgeAction s b now a).1.currentPieceId = s.currentPieceId ∧
    (edgeAction s b now a).1.lastAction = s.lastAction := by
  unfold edgeAction
  repeat' (first | simp | split_ifs | split)

theorem continuousUpdate_pres (s : State) (b : Bool) (now : ℕ) (a : String) :
    (continuousUpdate s b now a).1.bothHandsVisible = s.bothHandsVisible ∧
    (continuousUpdate s b now a).1.baselineLeftShoulder = s.baselineLeftShoulder ∧
    (continuousUpdate s b now a).1.baselineRightShoulder = s.baselineRightShoulder ∧
    (continuousUpdate s b now a).1.baselineNose = s.baselineNose ∧
    (continuousUpdate s b now a).1.calibrationFrames = s.calibrationFrames ∧
    (continuousUpdate s b now a).1.isGestureDetected = s.isGestureDetected ∧
    (continuousUpdate s b now a).1.lastGestureDetectionStatus = s.lastGestureDetectionStatus ∧
    (continuousUpdate s b now a).1.poseDetectionFailureCount = s.poseDetectionFailureCount ∧
    (continuousUpdate s b now a).1.recentDetectionHistory = s.recentDetectionHistory ∧
    (continuousUpdate s b now a).1.frameCounter = s.frameCounter ∧
    (continuousUpdate s b now a).1.lastActionTime = s.lastActionTime ∧
    (continuousUpdate s b now a).1.isFastDropTriggered = s.isFastDropTriggered ∧
    (continuousUpdate s b now a).1.fastDropPieceId = s.fastDropPieceId ∧
    (continuousUpdate s b now a).1.fastDropStartTime = s.fastDropStartTime ∧
    (continuousUpdate s b now a).1.isHeadShaking = s.isHeadShaking ∧
    (continuousUpdate s b now a).1.leftHandState = s.leftHandState ∧
    (continuousUpdate s b now a).1.rightHandState = s.rightHandState ∧
    (continuousUpdate s b now a).1.lastLeftHandState = s.lastLeftHandState ∧
    (continuousUpdate s b now a).1.lastRightHandState = s.lastRightHandState ∧
    (continuousUpdate s b now a).1.currentPieceId = s.currentPieceId ∧
    (continuousUpdate s b now a).1.lastAction = s.lastAction := by
  unfold continuousUpdate
  repeat' (first | simp | split_ifs | split)

theorem dispatch_pres (s : State) (g : GameIn) (now : ℕ) (a : String) :
    (dispatch s g now a).1.bothHandsVisible = s.bothHandsVisible ∧
    (dispatch s g now a).1.baselineLeftShoulder = s.baselineLeftShoulder ∧
    (dispatch s g now a).1.baselineRightShoulder = s.baselineRightShoulder ∧
    (dispatch s g now a).1.baselineNose = s.baselineNose ∧
    (dispatch s g now a).1.calibrationFrames = s.calibrationFrames ∧
    (dispatch s g now a).1.isGestureDetected = s.isGestureDetected ∧
    (dispatch s g now a).1.lastGestureDetectionStatus = s.lastGestureDetectionStatus ∧
    (dispatch s g now a).1.poseDetectionFailureCount = s.poseDetectionFailureCount ∧
    (dispatch s g now a).1.recentDetectionHistory = s.recentDetectionHistory ∧
    (dispatch s g now a).1.frameCounter = s.frameCounter ∧
    (dispatch s g now a).1.isFastDropTriggered = s.isFastDropTriggered ∧
    (dispatch s g now a).1.fastDropPieceId = s.fastDropPieceId ∧
    (dispatch s g now a).1.fastDropStartTime = s.fastDropStartTime ∧
    (dispatch s g now a).1.isInContinuousMode = s.isInContinuousMode ∧
    (dispatch s g now a).1.continuousMoveStartTime = s.continuousMoveStartTime ∧
    (dispatch s g now a).1.isHeadShaking = s.isHeadShaking ∧
    (dispatch s g now a).1.leftHandState = s.leftHandState ∧
    (dispatch s g now a).1.rightHandState = s.rightHandState ∧
    (dispatch s g now a).1.lastLeftHandState = s.lastLeftHandState ∧
    (dispatch s g now a).1.lastRightHandState = s.lastRightHandState ∧
    (dispatch s g now a).1.currentPieceId = s.currentPieceId := by
  unfold dispatch
  repeat' (first | simp | split_ifs | split)


/-! ### Behavior lemmas for single blocks. -/

theorem detectHandGestures_cooldown (s : State) (lm : Landmarks) (g : GameIn)
    (now : ℕ) (hcd : now - s.lastActionTime < actionCooldown) :
    detectHandGestures s lm g now = (s, []) := by
  unfold detectHandGestures
  split_ifs <;> simp_all

theorem executeAction_not_running (g : GameIn) (hg : g.gameRunning = false)
    (a : String) : executeAction g a = [] := by
  unfold executeAction
  simp [hg]

theorem dispatch_snd_not_running (g : GameIn) (hg : g.gameRunning = false)
    (s : State) (now : ℕ) (a : String) : (dispatch s g now a).2 = [] := by
  unfold dispatch
  repeat' (first | simp [executeAction_not_running g hg] | split_ifs | split)

theorem fastDropExec_not_running (g : GameIn) (hg : g.gameRunning = false)
    (s : State) (now : ℕ) : fastDropExec s g now = (s, []) := by
  unfold fastDropExec
  split_ifs <;> simp_all

theorem fastDropExec_disarmed (s : State) (g : GameIn) (now : ℕ)
    (h : s.isFastDropTriggered = false) : fastDropExec s g now = (s, []) := by
  unfold fastDropExec
  split_ifs <;> simp_all

theorem fastDropExec_count_rotate (s : State) (g : GameIn) (now : ℕ) :
    (fastDropExec s g now).2.count Cmd.rotate = 0 := by
  unfold fastDropExec
  split_ifs <;> simp

theorem fastDropExec_drop (s : State) (g : GameIn) (now : ℕ)
    (h : (fastDropExec s g now).2.count Cmd.dropStep ≠ 0) :
    s.isFastDropTriggered = true := by
  by_contra hc
  rw [fastDropExec_disarmed s g now (by simpa using hc)] at h
  simp at h

theorem dispatch_none (s : State) (g : GameIn) (now : ℕ) :
    dispatch s g now "" = (s, []) := by
  unfold dispatch
  simp

theorem dispatch_cont (s : State) (g : GameIn) (now : ℕ) (a : String)
    (h : s.isInContinuousMode = true) : (dispatch s g now a).1 = s := by
  unfold dispatch
  split_ifs <;> simp_all

theorem dispatch_rotate_cmds (s : State) (g : GameIn) (now : ℕ) :
    (dispatch s g now "rotate").2 = executeAction g "rotate" := by
  unfold dispatch
  repeat' (first | simp | split_ifs | split)

theorem dispatch_snd_cases (s : State) (g : GameIn) (now : ℕ) (a : String) :
    (dispatch s g now a).2 = executeAction g a ∨ (dispatch s g now a).2 = [] := by
  unfold dispatch
  repeat' (first | simp | split_ifs | split)

theorem executeAction_count_dropStep (g : GameIn) (a : String) :
    (executeAction g a).count Cmd.dropStep = 0 := by
  unfold executeAction
  split_ifs <;> simp

theorem edgeAction_true (s : State) (now : ℕ) (a : String) :
    edgeAction s true now a = (s, a) := by
  unfold edgeAction
  simp

theorem continuousUpdate_true (s : State) (now : ℕ) (a : String) :
    continuousUpdate s true now a =
      (if s.isInContinuousMode = true then
         { s with isInContinuousMode := false, continuousMoveStartTime := 0 }
       else s, a) := by
  unfold continuousUpdate
  repeat' (first | simp | split_ifs | split)

theorem pieceTrack_arm (s : State) (g : GameIn)
    (h : (pieceTrack s g).isFastDropTriggered = true) :
    s.isFastDropTriggered = true := by
  unfold pieceTrack at h
  revert h
  repeat' (first | simp | split_ifs | split)

theorem pieceTrack_disarmed (s : State) (g : GameIn)
    (h : s.isFastDropTriggered = false) :
    (pieceTrack s g).isFastDropTriggered = false ∧
    (pieceTrack s g).fastDropPieceId = s.fastDropPieceId ∧
    (pieceTrack s g).fastDropStartTime = s.fastDropStartTime := by
  unfold pieceTrack
  repeat' (first | simp_all | split_ifs | split)

theorem fastDropUpdate_arm (s : State) (g : GameIn) (now : ℕ)
    (h0 : s.isFastDropTriggered = false)
    (h : (fastDropUpdate s g now).isFastDropTriggered = true) :
    s.isHeadShaking = true ∧ s.fastDropStartTime ≠ 0 ∧
    fastDropTriggerDelay ≤ now - s.fastDropStartTime := by
  unfold fastDropUpdate at h
  revert h
  repeat' (first | simp_all | split_ifs | split)

theorem fastDropUpdate_disarmed_zero (s : State) (g : GameIn) (now : ℕ)
    (h0 : s.isFastDropTriggered = false) (hz : s.fastDropStartTime = 0) :
    (fastDropUpdate s g now).isFastDropTriggered = false ∧
    (fastDropUpdate s g now).fastDropPieceId = s.fastDropPieceId ∧
    ((fastDropUpdate s g now).fastDropStartTime = 0 ∨
      (fastDropUpdate s g now).fastDropStartTime = now) := by
  unfold fastDropUpdate
  repeat' (first | simp_all | split_ifs | split)

theorem pieceTrack_change (s : State) (g : GameIn) (p1 p2 : ℕ)
    (hc : s.currentPieceId = some p1) (hf : s.fastDropPieceId = some p1)
    (ht : s.isFastDropTriggered = true) (hg : g.currentPiece = some p2)
    (hne : p2 ≠ p1) :
    pieceTrack s g = { s with
      currentPieceId := some p2
      isFastDropTriggered := false
      fastDropPieceId := none
      fastDropStartTime := 0 } := by
  unfold pieceTrack
  rw [hg]
  simp only [hc, ht, hf]
  split_ifs <;> simp_all

theorem statusNotify_pres (s : State) :
    (statusNotify s).1.bothHandsVisible = s.bothHandsVisible ∧
    (statusNotify s).1.baselineLeftShoulder = s.baselineLeftShoulder ∧
    (statusNotify s).1.baselineRightShoulder = s.baselineRightShoulder ∧
    (statusNotify s).1.baselineNose = s.baselineNose ∧
    (statusNotify s).1.calibrationFrames = s.calibrationFrames ∧
    (statusNotify s).1.isGestureDetected = s.isGestureDetected ∧
    (statusNotify s).1.poseDetectionFailureCount = s.poseDetectionFailureCount ∧
    (statusNotify s).1.recentDetectionHistory = s.recentDetectionHistory ∧
    (statusNotify s).1.frameCounter = s.frameCounter ∧
    (statusNotify s).1.lastActionTime = s.lastActionTime ∧
    (statusNotify s).1.isFastDropTriggered = s.isFastDropTriggered ∧
    (statusNotify s).1.fastDropPieceId = s.fastDropPieceId ∧
    (statusNotify s).1.fastDropStartTime = s.fastDropStartTime ∧
    (statusNotify s).1.isInContinuousMode = s.isInContinuousMode ∧
    (statusNotify s).1.continuousMoveStartTime = s.continuousMoveStartTime := by
  unfold statusNotify
  repeat' (first | simp | split_ifs | split)

end HandControl

namespace HandControl

set_option maxHeartbeats 1000000 in
theorem detectHandGestures_pres (s : State) (lm : Landmarks) (g : GameIn)
    (now : ℕ) :
    (detectHandGestures s lm g now).1.baselineLeftShoulder = s.baselineLeftShoulder ∧
    (detectHandGestures s lm g now).1.baselineRightShoulder = s.baselineRightShoulder ∧
    (detectHandGestures s lm g now).1.baselineNose = s.baselineNose ∧
    (detectHandGestures s lm g now).1.calibrationFrames = s.calibrationFrames ∧
    (detectHandGestures s lm g now).1.isGestureDetected = s.isGestureDetected ∧
    (detectHandGestures s lm g now).1.lastGestureDetectionStatus = s.lastGestureDetectionStatus ∧
    (detectHandGestures s lm g now).1.poseDetectionFailureCount = s.poseDetectionFailureCount ∧
    (detectHandGestures s lm g now).1.recentDetectionHistory = s.recentDetectionHistory ∧
    (detectHandGestures s lm g now).1.frameCounter = s.frameCounter := by
  unfold detectHandGestures
  repeat' (first
    | simp [updateHeadHistory_pres, detectHeadShake_pres, updateHandHistory_pres,
        pieceTrack_pres, fastDropUpdate_pres, fastDropExec_pres, edgeAction_pres,
        continuousUpdate_pres, dispatch_pres]
    | split_ifs
    | split)

set_option maxHeartbeats 1000000 in
theorem detectHandGestures_not_running (s : State) (lm : Landmarks)
    (g : GameIn) (now : ℕ) (hg : g.gameRunning = false) :
    (detectHandGestures s lm g now).2 = [] := by
  unfold detectHandGestures
  repeat' (first
    | simp [fastDropExec_not_running g hg, dispatch_snd_not_running g hg]
    | split_ifs
    | split)

theorem onResults_not_running (s : State) (sample : Option Landmarks)
    (g : GameIn) (now : ℕ) (hg : g.gameRunning = false) :
    (onResults s sample g now).2.cmds = [] := by
  unfold onResults
  repeat' (first
    | simp [detectHandGestures_not_running _ _ _ _ hg]
    | split_ifs
    | split)

theorem dispatch_count_dropStep (s : State) (g : GameIn) (now : ℕ)
    (a : String) : (dispatch s g now a).2.count Cmd.dropStep = 0 := by
  unfold dispatch
  repeat' (first | simp [executeAction_count_dropStep] | split_ifs | split)

set_option maxHeartbeats 2000000 in
theorem pieceChange_cycle (s : State) (lm : Landmarks) (g : GameIn) (now : ℕ)
    (lw rw ls rs n : Pt) (p1 p2 : ℕ)
    (hb1 : s.baselineLeftShoulder ≠ none) (hb2 : s.baselineRightShoulder ≠ none)
    (hb3 : s.baselineNose ≠ none)
    (hcd : ¬ now - s.lastActionTime < actionCooldown)
    (hfc : s.frameCounter % 30 ≠ 0)
    (h1 : lm.leftWrist = some lw) (h2 : lm.rightWrist = some rw)
    (h3 : lm.leftShoulder = some ls) (h4 : lm.rightShoulder = some rs)
    (h5 : lm.nose = some n)
    (ht : s.isFastDropTriggered = true) (hcp : s.currentPieceId = some p1)
    (hfp : s.fastDropPieceId = some p1) (hgp : g.currentPiece = some p2)
    (hne : p2 ≠ p1) :
    (detectHandGestures s lm g now).1.isFastDropTriggered = false ∧
    (detectHandGestures s lm g now).1.fastDropPieceId = none ∧
    ((detectHandGestures s lm g now).1.fastDropStartTime = 0 ∨
      (detectHandGestures s lm g now).1.fastDropStartTime = now) ∧
    (detectHandGestures s lm g now).2.count Cmd.dropStep = 0 := by
  unfold detectHandGestures
  rw [h1, h2, h3, h4, h5]
  rw [if_neg (by simp [hb1, hb2, hb3]), if_neg hcd]
  repeat' (first
    | simp_all [updateHeadHistory_pres, detectHeadShake_pres, updateHandHistory_pres,
        pieceTrack_pres, fastDropUpdate_pres, fastDropExec_pres, edgeAction_pres,
        continuousUpdate_pres, dispatch_pres, pieceTrack_change,
        fastDropUpdate_disarmed_zero, fastDropExec_disarmed,
        dispatch_count_dropStep, executeAction_count_dropStep]
    | split_ifs
    | split)

def confirmedShakeThisCycle (s : State) (n : Pt) (now : ℕ) : Bool :=
  (detectHeadShake (updateHeadHistory s n now)).isHeadShaking

theorem confirmedShake_lastAction (s : State) (a : String) (n : Pt) (now : ℕ) :
    confirmedShakeThisCycle { s with lastAction := a } n now =
      confirmedShakeThisCycle s n now := by
  unfold confirmedShakeThisCycle detectHeadShake updateHeadHistory
  repeat' (first | simp | split_ifs | split)

theorem disarmed_core (X : State) (g : GameIn) (now : ℕ)
    (hdis : X.isFastDropTriggered = false)
    (h : (fastDropExec (fastDropUpdate (pieceTrack X g) g now) g
        now).2.count Cmd.dropStep ≠ 0) :
    X.isHeadShaking = true ∧ X.fastDropStartTime ≠ 0 ∧
    fastDropTriggerDelay ≤ now - X.fastDropStartTime := by
  have h1 : (fastDropUpdate (pieceTrack X g) g now).isFastDropTriggered =
      true := fastDropExec_drop _ _ _ h
  obtain ⟨d1, d2, d3⟩ := pieceTrack_disarmed X g hdis
  have h2 := fastDropUpdate_arm _ g now d1 h1
  simpa [pieceTrack_pres, d3] using h2

set_option maxHeartbeats 2000000 in
theorem disarmed_drop_characterization (s : State) (lm : Landmarks)
    (g : GameIn) (now : ℕ) (n : Pt)
    (h5 : lm.nose = some n)
    (ht : s.isFastDropTriggered = false)
    (hd : (detectHandGestures s lm g now).2.count Cmd.dropStep ≠ 0) :
    confirmedShakeThisCycle s n now = true ∧ s.fastDropStartTime ≠ 0 ∧
    fastDropTriggerDelay ≤ now - s.fastDropStartTime := by
  unfold detectHandGestures at hd
  split at hd
  · simp at hd
  split at hd
  · simp at hd
  split at hd
  rotate_left
  · simp at hd
  rename_i lw rw ls rs n2 hlw hrw hls hrs hn2
  rw [h5] at hn2
  injection hn2 with hn2
  subst hn2
  simp only [] at hd
  split at hd
  · simp at hd
  simp only [List.count_append, dispatch_count_dropStep, Nat.add_zero] at hd
  obtain ⟨ha, hb, hc⟩ := disarmed_core _ g now
    (by simp [updateHandHistory_pres, detectHeadShake_pres,
      updateHeadHistory_pres, ht]) hd
  refine ⟨?_, ?_, ?_⟩
  · rw [← confirmedShake_lastAction s "" n now]
    exact ha
  · simpa [updateHandHistory_pres, detectHeadShake_pres,
      updateHeadHistory_pres] using hb
  · simpa [updateHandHistory_pres, detectHeadShake_pres,
      updateHeadHistory_pres] using hc

end HandControl

namespace HandControl

theorem calibrateBaseline_pres (s : State) (lm : Landmarks) :
    (calibrateBaseline s lm).1.isGestureDetected = s.isGestureDetected ∧
    (calibrateBaseline s lm).1.poseDetectionFailureCount = s.poseDetectionFailureCount ∧
    (calibrateBaseline s lm).1.recentDetectionHistory = s.recentDetectionHistory ∧
    (calibrateBaseline s lm).1.lastGestureDetectionStatus = s.lastGestureDetectionStatus ∧
    (calibrateBaseline s lm).1.calibrationFrames = s.calibrationFrames ∧
    (calibrateBaseline s lm).1.frameCounter = s.frameCounter := by
  unfold calibrateBaseline
  repeat' (first | simp | split_ifs | split)

set_option maxHeartbeats 1000000 in
theorem onResults_cooldown (s : State) (lm : Landmarks) (g : GameIn) (now : ℕ)
    (hcal : ¬ s.calibrationFrames < maxCalibrationFrames)
    (hcd : now - s.lastActionTime < actionCooldown) :
    onResults s (some lm) g now =
      ({ s with
          poseDetectionFailureCount := 0
          lastSuccessfulDetection := now
          isGestureDetected := true
          recentDetectionHistory := pushHistory s.recentDetectionHistory true
          lastGestureDetectionStatus := true
          frameCounter := s.frameCounter + 1 },
       { cmds := [], calibrationCompleteFired := false,
         statusChange :=
           if s.lastGestureDetectionStatus = true then none else some true }) := by
  unfold onResults statusNotify
  repeat' (first
    | simp_all [detectHandGestures_cooldown]
    | omega
    | split_ifs
    | split)

theorem onResults_valid_detected (s : State) (lm : Landmarks) (g : GameIn)
    (now : ℕ) :
    (onResults s (some lm) g now).1.isGestureDetected = true ∧
    (onResults s (some lm) g now).1.poseDetectionFailureCount = 0 := by
  unfold onResults statusNotify
  repeat' (first
    | simp_all [calibrateBaseline_pres, detectHandGestures_pres]
    | split_ifs
    | split)

theorem onResults_miss_flip (s : State) (g : GameIn) (now : ℕ)
    (h : (onResults s none g now).1.isGestureDetected = false) :
    s.isGestureDetected = false ∨
      (maxFailureCount ≤ s.poseDetectionFailureCount + 1 ∧
        recentSuccessRate (pushHistory s.recentDetectionHistory false) <
          2/10) := by
  unfold onResults statusNotify at h
  revert h
  repeat' (first | simp_all | split_ifs | split)

theorem onResults_single_miss (s : State) (g : GameIn) (now : ℕ)
    (hf : s.poseDetectionFailureCount + 1 < maxFailureCount) :
    (onResults s none g now).1.isGestureDetected = s.isGestureDetected := by
  unfold onResults statusNotify
  repeat' (first | simp_all [Nat.not_le_of_lt] | split_ifs | split)

end HandControl

namespace HandControl

theorem continuousUpdate_bothDown (s : State) (now : ℕ) (a : String)
    (hl : s.leftHandState = "down") (hr : s.rightHandState = "down") :
    continuousUpdate s false now a =
      ({ s with continuousMoveStartTime := 0, isInContinuousMode := false },
        a) := by
  unfold continuousUpdate
  repeat' (first | simp_all | split_ifs | split)

theorem continuousUpdate_unstable_left (s : State) (now : ℕ) (a : String)
    (h1 : s.leftHandState = "up") (h2 : s.lastLeftHandState = "up")
    (h3 : s.rightHandState = "down") (hin : s.isInContinuousMode = true)
    (hst : isHandStable s.leftHandHistory = false) :
    continuousUpdate s false now a =
      ({ s with isInContinuousMode := false, continuousMoveStartTime := 0 },
        a) := by
  unfold continuousUpdate
  repeat' (first | simp_all | split_ifs | split)

theorem continuousUpdate_reentry_left (s : State) (now : ℕ) (a : String)
    (h1 : s.leftHandState = "up") (h2 : s.lastLeftHandState = "up")
    (h3 : s.rightHandState = "down") (hin : s.isInContinuousMode = false)
    (hz : s.continuousMoveStartTime = 0)
    (hst : isHandStable s.leftHandHistory = true)
    (hnow : continuousMoveThreshold ≤ now) :
    continuousUpdate s false now a =
      ({ s with isInContinuousMode := true, lastContinuousMoveTime := now },
        "left") := by
  unfold continuousUpdate
  repeat' (first | simp_all | split_ifs | split)

theorem continuousUpdate_enter_gate (s : State) (b : Bool) (now : ℕ)
    (a : String) (hin : s.isInContinuousMode = false)
    (hen : (continuousUpdate s b now a).1.isInContinuousMode = true) :
    continuousMoveThreshold ≤ now - s.continuousMoveStartTime := by
  unfold continuousUpdate at hen
  revert hen
  repeat' (first | simp_all | split_ifs | split)

theorem edgeAction_left_edge (s : State) (now : ℕ) (a : String)
    (h1 : s.leftHandState = "up") (h2 : s.lastLeftHandState ≠ "up")
    (h3 : s.rightHandState = "down") :
    edgeAction s false now a =
      ({ s with continuousMoveStartTime := now, isInContinuousMode := false },
        "left") := by
  unfold edgeAction
  repeat' (first | simp_all | split_ifs | split)

end HandControl

namespace HandControl

set_option maxRecDepth 40000 in
unseal Rat.add Rat.sub Rat.mul Rat.inv in
/-- C1: after a clean 30-frame calibration, 100 consecutive Both-Hands-Up
cycles on a running game dispatch exactly one rotate, but on the second
qualifying cycle: the first gesture frame has `frameCounter = 0`, and every
frame with `frameCounter % 30 = 0` dies in the debug block at lines 518-524
(`areBothHandsUp` is read before its `const` declaration at line 545, a
temporal-dead-zone ReferenceError caught at line 756). -/
theorem rotate_run_second_cycle :
    (c1Frames.drop 30).all qualFrame = true ∧
    (runResults (resetCalibration 0) c1Frames).1.calibrationFrames =
      maxCalibrationFrames ∧
    ((runResults (resetCalibration 0) c1Frames).2.map
      (List.count Cmd.rotate)).sum = 1 ∧
    (runResults (resetCalibration 0) c1Frames).2.get? 30 = some [] ∧
    (runResults (resetCalibration 0) c1Frames).2.get? 31 =
      some [Cmd.rotate] := by decide

unseal Rat.add Rat.sub Rat.mul Rat.inv in
/-- C2 counterexample: in a calibrated state 100 ms after the previous
action, with a Both-Hands-Up edge pending and a continuous-move tick due,
the gesture step emits nothing and changes nothing. -/
theorem cooldown_blocks_rotate_and_tick :
    bothHandsUpSample upSample = true ∧
    c2State.bothHandsVisible = false ∧
    c2State.isInContinuousMode = true ∧
    isHandStable c2State.leftHandHistory = true ∧
    continuousMoveInterval ≤ 1100 - c2State.lastContinuousMoveTime ∧
    1100 - c2State.lastActionTime < actionCooldown ∧
    gRun.gameRunning = true ∧
    detectHandGestures c2State upSample gRun 1100 = (c2State, []) := by
  decide

/-- C2 amended: the 150 ms cooldown gate blocks the whole gesture step —
rotate edges and continuous ticks included; the actual cooldown exceptions
are that a dispatch in continuous mode leaves the state (hence
`lastActionTime`) unchanged, so continuous ticks never start a cooldown, and
that a rotate is never skipped by the same-as-last-action check. -/
theorem cooldown_gate_blocks_everything :
    (∀ (s : State) (lm : Landmarks) (g : GameIn) (now : ℕ),
      now - s.lastActionTime < actionCooldown →
      detectHandGestures s lm g now = (s, [])) ∧
    (∀ (s : State) (g : GameIn) (now : ℕ) (a : String),
      s.isInContinuousMode = true → (dispatch s g now a).1 = s) ∧
    (∀ (s : State) (g : GameIn) (now : ℕ),
      (dispatch s g now "rotate").2 = executeAction g "rotate") :=
  ⟨detectHandGestures_cooldown, dispatch_cont, dispatch_rotate_cmds⟩

/-- Witness for the amended C2 theorem at concrete inputs. -/
theorem cooldown_gate_blocks_everything_witness :
    detectHandGestures c2State upSample gRun 1100 = (c2State, []) ∧
    (dispatch c2State gRun 1100 "left").1 = c2State :=
  ⟨cooldown_gate_blocks_everything.1 c2State upSample gRun 1100 (by decide),
   cooldown_gate_blocks_everything.2.1 c2State gRun 1100 "left" (by decide)⟩

set_option maxRecDepth 100000 in
unseal Rat.add Rat.sub Rat.mul Rat.inv in
/-- C3 counterexample: on the alternating 0.40/0.50 head sequence,
confirmed shaking is already true after 31 frames, refuting "no earlier
than frame 32". -/
theorem headShake_confirmed_frame31 :
    (feedHead (resetCalibration 0) (altSeq 31) 0).isHeadShaking = true := by
  decide

set_option maxRecDepth 400000 in
unseal Rat.add Rat.sub Rat.mul Rat.inv in
/-- C3 amended: confirmed shaking first becomes true exactly at frame 31:
the window-filling 20th frame already counts as the first qualifying frame,
so the counter reaches 12 on frame 20 + 11 = 31. -/
theorem headShake_first_confirmed_exactly_31 :
    ((List.range 31).all fun n =>
      !(feedHead (resetCalibration 0) (altSeq n) 0).isHeadShaking) = true ∧
    (feedHead (resetCalibration 0) (altSeq 31) 0).isHeadShaking = true ∧
    (feedHead (resetCalibration 0) (altSeq 32) 0).isHeadShaking = true := by
  decide

end HandControl

namespace HandControl

/-- C4: on a processed cycle where the game's piece has changed from the
bound `p1` to a different `p2`, the fast-drop binding and trigger are
cleared, the start timestamp is reset (possibly to the current cycle time,
restarting the 500 ms qualification), and no drop step is emitted; and from
any disarmed state, a cycle can emit a drop step only when the cycle's
confirmed head shake holds and the 500 ms qualification delay has elapsed
since a nonzero start timestamp. -/
theorem fastDrop_piece_change_invalidation :
    (∀ (s : State) (lm : Landmarks) (g : GameIn) (now : ℕ)
      (lw rw ls rs n : Pt) (p1 p2 : ℕ),
      s.baselineLeftShoulder ≠ none → s.baselineRightShoulder ≠ none →
      s.baselineNose ≠ none →
      ¬ now - s.lastActionTime < actionCooldown →
      s.frameCounter % 30 ≠ 0 →
      lm.leftWrist = some lw → lm.rightWrist = some rw →
      lm.leftShoulder = some ls → lm.rightShoulder = some rs →
      lm.nose = some n →
      s.isFastDropTriggered = true → s.currentPieceId = some p1 →
      s.fastDropPieceId = some p1 → g.currentPiece = some p2 → p2 ≠ p1 →
      (detectHandGestures s lm g now).1.isFastDropTriggered = false ∧
      (detectHandGestures s lm g now).1.fastDropPieceId = none ∧
      ((detectHandGestures s lm g now).1.fastDropStartTime = 0 ∨
        (detectHandGestures s lm g now).1.fastDropStartTime = now) ∧
      (detectHandGestures s lm g now).2.count Cmd.dropStep = 0) ∧
    (∀ (s : State) (lm : Landmarks) (g : GameIn) (now : ℕ) (n : Pt),
      lm.nose = some n → s.isFastDropTriggered = false →
      (detectHandGestures s lm g now).2.count Cmd.dropStep ≠ 0 →
      confirmedShakeThisCycle s n now = true ∧ s.fastDropStartTime ≠ 0 ∧
      fastDropTriggerDelay ≤ now - s.fastDropStartTime) :=
  ⟨fun s lm g now lw rw ls rs n p1 p2 hb1 hb2 hb3 hcd hfc h1 h2 h3 h4 h5 ht
      hcp hfp hgp hne =>
    pieceChange_cycle s lm g now lw rw ls rs n p1 p2 hb1 hb2 hb3 hcd hfc
      h1 h2 h3 h4 h5 ht hcp hfp hgp hne,
   fun s lm g now n h5 ht hd =>
    disarmed_drop_characterization s lm g now n h5 ht hd⟩

set_option maxRecDepth 100000 in
unseal Rat.add Rat.sub Rat.mul Rat.inv in
/-- Witness for the C4 theorem: a concrete armed state whose piece changes
from 1 to 2, and a concrete disarmed shaking state that emits a drop step. -/
theorem fastDrop_piece_change_invalidation_witness :
    ((detectHandGestures c4State leftUpSample gPiece2 1000).1.isFastDropTriggered = false ∧
     (detectHandGestures c4State leftUpSample gPiece2 1000).1.fastDropPieceId = none ∧
     ((detectHandGestures c4State leftUpSample gPiece2 1000).1.fastDropStartTime = 0 ∨
       (detectHandGestures c4State leftUpSample gPiece2 1000).1.fastDropStartTime = 1000) ∧
     (detectHandGestures c4State leftUpSample gPiece2 1000).2.count Cmd.dropStep = 0) ∧
    (confirmedShakeThisCycle c4bState ⟨1/2, 3/10, 0, 9/10⟩ 1000 = true ∧
     c4bState.fastDropStartTime ≠ 0 ∧
     fastDropTriggerDelay ≤ 1000 - c4bState.fastDropStartTime) :=
  ⟨fastDrop_piece_change_invalidation.1 c4State leftUpSample gPiece2 1000
      ⟨3/10, 3/10, 0, 9/10⟩ ⟨7/10, 3/5, 0, 1/10⟩ ⟨2/5, 1/2, 0, 9/10⟩
      ⟨3/5, 1/2, 0, 9/10⟩ ⟨1/2, 3/10, 0, 9/10⟩ 1 2
      (by decide) (by decide) (by decide) (by decide) (by decide)
      rfl rfl rfl rfl rfl rfl rfl rfl rfl (by decide),
   fastDrop_piece_change_invalidation.2 c4bState leftUpSample gRun 1000
      ⟨1/2, 3/10, 0, 9/10⟩ rfl rfl (by decide)⟩

set_option maxRecDepth 100000 in
unseal Rat.add Rat.sub Rat.mul Rat.inv in
/-- C5: exactly 30 valid calibration samples with the nose at (0.5, 0.3)
and shoulders at (0.4, 0.5)/(0.6, 0.5) complete calibration with baselines
equal to those constants; any fewer leaves the completion event unfired and
the baselines as raw undivided sums. -/
theorem calibration_convergence :
    (runResults (resetCalibration 0) (calFrames 30)).1.baselineNose =
      some ⟨1/2, 3/10, 0⟩ ∧
    (runResults (resetCalibration 0) (calFrames 30)).1.baselineLeftShoulder =
      some ⟨2/5, 1/2, 0⟩ ∧
    (runResults (resetCalibration 0) (calFrames 30)).1.baselineRightShoulder =
      some ⟨3/5, 1/2, 0⟩ ∧
    (runResults (resetCalibration 0) (calFrames 30)).1.calibrationCompletedNotified = true ∧
    (runResults (resetCalibration 0) (calFrames 30)).1.calibrationFrames = 30 ∧
    ((List.range 30).all fun n =>
      !(runResults (resetCalibration 0) (calFrames n)).1.calibrationCompletedNotified) = true ∧
    ((List.range 30).all fun n =>
      decide ((runResults (resetCalibration 0) (calFrames n)).1.baselineNose =
        if n = 0 then none
        else some ⟨(n : ℚ) * (1/2), (n : ℚ) * (3/10), 0⟩)) = true := by
  decide

set_option maxRecDepth 100000 in
unseal Rat.add Rat.sub Rat.mul Rat.inv in
/-- C6: a pose-detected calibration frame whose landmarks lack the nose
leaves the accumulated sums untouched but still advances the frame counter
(the increment in `onResults` is unconditional); when such a frame is the
30th, the division and completion never happen and later valid frames no
longer calibrate. -/
theorem calibration_missing_point_counts :
    calState5.calibrationFrames = 5 ∧
    (onResults calState5 (some noNoseSample) gRun 0).1.calibrationFrames = 6 ∧
    (onResults calState5 (some noNoseSample) gRun 0).1.baselineNose =
      calState5.baselineNose ∧
    (onResults calState5 (some noNoseSample) gRun 0).1.baselineLeftShoulder =
      calState5.baselineLeftShoulder ∧
    (runResults (resetCalibration 0) c6Frames).1.calibrationFrames = 30 ∧
    (runResults (resetCalibration 0) c6Frames).1.calibrationCompletedNotified = false ∧
    (runResults (resetCalibration 0)
      (c6Frames ++ calFrames 5)).1.calibrationCompletedNotified = false ∧
    (runResults (resetCalibration 0) (c6Frames ++ calFrames 5)).1.baselineNose =
      some ⟨29/2, 87/10, 0⟩ := by
  decide

/-- C7: a valid sample always sets detected true and resets the failure
counter; a missed frame flips detected to false only when the incremented
consecutive-failure counter reaches 30 and the recent success rate over the
updated bounded window is below 20%; a single miss with a smaller counter
never changes the detected status. -/
theorem detection_hysteresis :
    (∀ (s : State) (lm : Landmarks) (g : GameIn) (now : ℕ),
      (onResults s (some lm) g now).1.isGestureDetected = true ∧
      (onResults s (some lm) g now).1.poseDetectionFailureCount = 0) ∧
    (∀ (s : State) (g : GameIn) (now : ℕ),
      (onResults s none g now).1.isGestureDetected = false →
      s.isGestureDetected = false ∨
        (maxFailureCount ≤ s.poseDetectionFailureCount + 1 ∧
          recentSuccessRate (pushHistory s.recentDetectionHistory false) <
            2/10)) ∧
    (∀ (s : State) (g : GameIn) (now : ℕ),
      s.poseDetectionFailureCount + 1 < maxFailureCount →
      (onResults s none g now).1.isGestureDetected = s.isGestureDetected) :=
  ⟨onResults_valid_detected, onResults_miss_flip, onResults_single_miss⟩

/-- Witness for the C7 theorem: a single miss amid prior successes keeps
detected true; a valid frame after a loss flips it back to true. -/
theorem detection_hysteresis_witness :
    (onResults { resetCalibration 0 with
        isGestureDetected := true
        lastGestureDetectionStatus := true
        recentDetectionHistory := List.replicate 10 true
        calibrationFrames := 30 } none gRun 0).1.isGestureDetected =
      ({ resetCalibration 0 with
        isGestureDetected := true
        lastGestureDetectionStatus := true
        recentDetectionHistory := List.replicate 10 true
        calibrationFrames := 30 } : State).isGestureDetected ∧
    (onResults { resetCalibration 0 with
        poseDetectionFailureCount := 45 } (some upSample)
        gRun 0).1.isGestureDetected = true :=
  ⟨detection_hysteresis.2.2 _ gRun 0 (by decide),
   (detection_hysteresis.1 _ upSample gRun 0).1⟩

/-- C9: when the game collaborator reports not running, no frame dispatches
any command to it. -/
theorem no_commands_game_not_running :
    ∀ (s : State) (sample : Option Landmarks) (g : GameIn) (now : ℕ),
      g.gameRunning = false → (onResults s sample g now).2.cmds = [] :=
  onResults_not_running

/-- Witness for the C9 theorem: a shaking, drop-qualified state dispatches
nothing when the game is stopped. -/
theorem no_commands_game_not_running_witness :
    (onResults c4bState (some leftUpSample) gStop 1000).2.cmds = [] :=
  no_commands_game_not_running c4bState (some leftUpSample) gStop 1000 rfl

/-- C10: a valid post-calibration frame arriving inside the 150 ms cooldown
leaves every gesture-state field unchanged and dispatches nothing; only the
detection-health bookkeeping, the status notification and the frame counter
move. -/
theorem cooldown_frame_health_only :
    ∀ (s : State) (lm : Landmarks) (g : GameIn) (now : ℕ),
      ¬ s.calibrationFrames < maxCalibrationFrames →
      now - s.lastActionTime < actionCooldown →
      onResults s (some lm) g now =
        ({ s with
            poseDetectionFailureCount := 0
            lastSuccessfulDetection := now
            isGestureDetected := true
            recentDetectionHistory := pushHistory s.recentDetectionHistory true
            lastGestureDetectionStatus := true
            frameCounter := s.frameCounter + 1 },
         { cmds := [], calibrationCompleteFired := false,
           statusChange :=
             if s.lastGestureDetectionStatus = true then none
             else some true }) :=
  onResults_cooldown

/-- Witness for the C10 theorem at a concrete cooldown frame. -/
theorem cooldown_frame_health_only_witness :
    onResults c2State (some upSample) gRun 1100 =
      ({ c2State with
          poseDetectionFailureCount := 0
          lastSuccessfulDetection := 1100
          isGestureDetected := true
          recentDetectionHistory := pushHistory c2State.recentDetectionHistory true
          lastGestureDetectionStatus := true
          frameCounter := c2State.frameCounter + 1 },
       { cmds := [], calibrationCompleteFired := false,
         statusChange :=
           if c2State.lastGestureDetectionStatus = true then none
           else some true }) :=
  cooldown_frame_health_only c2State upSample gRun 1100 (by decide) (by decide)

end HandControl

namespace HandControl

set_option maxRecDepth 100000 in
unseal Rat.add Rat.sub Rat.mul Rat.inv in
/-- C8 counterexample: from continuous mode, an unstable frame exits the
mode and clears the start time to 0; three frames later (99 ms after the
exit, with no fresh 800 ms hold) the mode re-enters and emits a repeat
move, because the hold time is computed as now - 0. -/
theorem continuous_reentry_within_99ms :
    c8State.isInContinuousMode = true ∧
    (runResults c8State (c8Frames.take 1)).1.isInContinuousMode = false ∧
    (runResults c8State (c8Frames.take 1)).1.continuousMoveStartTime = 0 ∧
    (runResults c8State c8Frames).1.isInContinuousMode = true ∧
    (runResults c8State c8Frames).2 = [[], [], [], [Cmd.moveLeft]] ∧
    (200132 : ℕ) - 200033 < continuousMoveThreshold := by
  decide

/-- C8 amended: every exit from continuous mode (both hands lowered,
instability, or the rotation condition becoming true) clears the continuous
flag and the hold start time to 0. Re-entry from outside continuous mode
always requires the hold test `continuousMoveThreshold ≤ now -
continuousMoveStartTime` against the current start time, and a single-hand
down-to-up edge with the other hand down re-arms the start time to the
cycle time, so only after such an edge is a genuine fresh 800 ms hold
needed. Because every exit clears the start time to 0, whenever the
single-hand-up state is reached again without such an intervening edge the
hold test reads `now - 0` and passes for any cycle timestamp of at least
800 ms (always, on an epoch-millisecond clock), so continuous mode
re-enters as soon as the hand is again held up and stable, with no fresh
800 ms hold. -/
theorem continuous_exit_and_reentry :
    (∀ (s : State) (now : ℕ) (a : String),
      s.leftHandState = "down" → s.rightHandState = "down" →
      continuousUpdate s false now a =
        ({ s with continuousMoveStartTime := 0, isInContinuousMode := false },
          a)) ∧
    (∀ (s : State) (now : ℕ) (a : String),
      s.leftHandState = "up" → s.lastLeftHandState = "up" →
      s.rightHandState = "down" → s.isInContinuousMode = true →
      isHandStable s.leftHandHistory = false →
      continuousUpdate s false now a =
        ({ s with isInContinuousMode := false, continuousMoveStartTime := 0 },
          a)) ∧
    (∀ (s : State) (now : ℕ) (a : String),
      continuousUpdate s true now a =
        (if s.isInContinuousMode = true then
          { s with isInContinuousMode := false, continuousMoveStartTime := 0 }
         else s, a)) ∧
    (∀ (s : State) (now : ℕ) (a : String),
      s.leftHandState = "up" → s.lastLeftHandState = "up" →
      s.rightHandState = "down" → s.isInContinuousMode = false →
      s.continuousMoveStartTime = 0 →
      isHandStable s.leftHandHistory = true →
      continuousMoveThreshold ≤ now →
      continuousUpdate s false now a =
        ({ s with isInContinuousMode := true, lastContinuousMoveTime := now },
          "left")) ∧
    (∀ (s : State) (b : Bool) (now : ℕ) (a : String),
      s.isInContinuousMode = false →
      (continuousUpdate s b now a).1.isInContinuousMode = true →
      continuousMoveThreshold ≤ now - s.continuousMoveStartTime) ∧
    (∀ (s : State) (now : ℕ) (a : String),
      s.leftHandState = "up" → s.lastLeftHandState ≠ "up" →
      s.rightHandState = "down" →
      edgeAction s false now a =
        ({ s with
            continuousMoveStartTime := now
            isInContinuousMode := false }, "left")) :=
  ⟨continuousUpdate_bothDown, continuousUpdate_unstable_left,
   continuousUpdate_true, continuousUpdate_reentry_left,
   continuousUpdate_enter_gate, edgeAction_left_edge⟩

unseal Rat.add Rat.sub Rat.mul Rat.inv in
/-- Witness for the amended C8 theorem: a concrete lowered-hands exit, a
concrete stable re-entry with start time 0 which satisfies the entry gate
only because the cleared start time makes the hold read the full epoch
timestamp, and a concrete edge re-arming the start time. -/
theorem continuous_exit_and_reentry_witness :
    continuousUpdate calibState false 300 "" =
      ({ calibState with
          continuousMoveStartTime := 0
          isInContinuousMode := false }, "") ∧
    continuousUpdate reentryState false 200132 "" =
      ({ reentryState with
          isInContinuousMode := true
          lastContinuousMoveTime := 200132 }, "left") ∧
    continuousMoveThreshold ≤ 200132 - reentryState.continuousMoveStartTime ∧
    edgeAction edgeState false 777 "" =
      ({ edgeState with
          continuousMoveStartTime := 777
          isInContinuousMode := false }, "left") :=
  ⟨continuous_exit_and_reentry.1 calibState 300 "" rfl rfl,
   continuous_exit_and_reentry.2.2.2.1 reentryState 200132 "" rfl rfl rfl
     rfl rfl (by decide) (by decide),
   continuous_exit_and_reentry.2.2.2.2.1 reentryState false 200132 ""
     (by decide) (by decide),
   continuous_exit_and_reentry.2.2.2.2.2 edgeState 777 "" rfl (by decide)
     rfl⟩

end HandControl
